import Mathlib

/-
Verification of the rumah123 ETL pipeline (extract / transform / load).

The Python sources are shallowly embedded:
* durations and float arithmetic are modelled as exact rationals;
* HTML markup is modelled as a node tree, with the BeautifulSoup queries
  used by the code (find, find_all, select_one, get_text) implemented on it;
* exceptions are modelled by Option / Except (none or .error = raised);
* pandas DataFrames are modelled as a column list plus a row list.
-/

namespace ETL

/-! ## RateLimiter (src/src/extract.py, class RateLimiter) -/

structure RateLimiter where
  base_sleep_time : ℚ
  min_sleep_time : ℚ
  max_sleep_time : ℚ
  consecutive_429s : ℕ
  consecutive_successes : ℕ
deriving DecidableEq

/-- The state built by RateLimiter() with its default arguments
(base_sleep=1.0, min_sleep=1.0, max_sleep=600.0). -/
def RateLimiter.init : RateLimiter :=
  { base_sleep_time := 1, min_sleep_time := 1, max_sleep_time := 600
    consecutive_429s := 0, consecutive_successes := 0 }

/-- RateLimiter.sleep: the duration slept before a request, for a jitter
drawn from [0.8, 1.2]; the limiter state is unchanged. -/
def RateLimiter.sleep_duration (r : RateLimiter) (jitter : ℚ) : ℚ :=
  r.base_sleep_time * jitter

/-- RateLimiter.handle_success: bump the success counter, reset the 429
counter, and reduce base_sleep_time by a factor chosen from the updated
success counter, clamped below by min_sleep_time; the reduced value is
kept only when strictly smaller than the current one. -/
def RateLimiter.handle_success (r : RateLimiter) : RateLimiter :=
  let consecutive_successes := r.consecutive_successes + 1
  let reduction_factor : ℚ :=
    if consecutive_successes ≥ 5 then 1/2
    else if consecutive_successes ≥ 3 then 7/10
    else 9/10
  let new_sleep_time := max r.min_sleep_time (r.base_sleep_time * reduction_factor)
  { r with
    consecutive_successes := consecutive_successes
    consecutive_429s := 0
    base_sleep_time :=
      if new_sleep_time < r.base_sleep_time then new_sleep_time else r.base_sleep_time }

/-- RateLimiter.handle_rate_limit, state part: reset the success counter,
bump the 429 counter, and scale base_sleep_time by 1.5 clamped above by
max_sleep_time. -/
def RateLimiter.handle_rate_limit (r : RateLimiter) : RateLimiter :=
  { r with
    consecutive_successes := 0
    consecutive_429s := r.consecutive_429s + 1
    base_sleep_time := min r.max_sleep_time (r.base_sleep_time * (3/2)) }

/-- RateLimiter.handle_rate_limit, slept duration: backoff_time is the
updated base_sleep_time times a jitter drawn from uniform(1.0, 1.5). -/
def RateLimiter.rate_limit_backoff (r : RateLimiter) (jitter : ℚ) : ℚ :=
  r.handle_rate_limit.base_sleep_time * jitter

/-- RateLimiter.handle_other_error, state part: only the success counter
is reset; base_sleep_time is unchanged. -/
def RateLimiter.handle_other_error (r : RateLimiter) : RateLimiter :=
  { r with consecutive_successes := 0 }

/-- RateLimiter.handle_other_error, slept duration: base_sleep_time * 1.5. -/
def RateLimiter.other_error_wait (r : RateLimiter) : ℚ :=
  r.base_sleep_time * (3/2)

/-- Well-formedness of a limiter state: the sleep bounds are durations
(min_sleep_time is non-negative) and base_sleep_time lies between them. -/
def RateLimiter.WF (r : RateLimiter) : Prop :=
  0 ≤ r.min_sleep_time ∧
  r.min_sleep_time ≤ r.base_sleep_time ∧
  r.base_sleep_time ≤ r.max_sleep_time

/-- A fetch outcome, as seen by the rate limiter. -/
inductive FetchSignal where
  | success
  | rateLimited
  | otherError
deriving DecidableEq

/-- Dispatch one fetch outcome to the corresponding handler. -/
def RateLimiter.applySignal (r : RateLimiter) : FetchSignal → RateLimiter
  | .success => r.handle_success
  | .rateLimited => r.handle_rate_limit
  | .otherError => r.handle_other_error

/-- Run a sequence of fetch outcomes through the limiter. -/
def RateLimiter.applySignals (r : RateLimiter) (sigs : List FetchSignal) : RateLimiter :=
  sigs.foldl RateLimiter.applySignal r

/-! ### RateLimiter lemmas -/

theorem RateLimiter.handle_success_mk (B m M : ℚ) (c s : ℕ) (h0 : 0 ≤ m) (h1 : m ≤ B) :
    RateLimiter.handle_success ⟨B, m, M, c, s⟩ =
      ⟨max m (B * (if s + 1 ≥ 5 then 1/2 else if s + 1 ≥ 3 then 7/10 else 9/10)),
       m, M, 0, s + 1⟩ := by
  have hB : 0 ≤ B := h0.trans h1
  have hf1 : (if s + 1 ≥ 5 then (1:ℚ)/2 else if s + 1 ≥ 3 then 7/10 else 9/10) ≤ 1 := by
    split
    · norm_num
    · split <;> norm_num
  have key : (if max m (B * (if s + 1 ≥ 5 then (1:ℚ)/2 else if s + 1 ≥ 3 then 7/10 else 9/10)) < B
        then max m (B * (if s + 1 ≥ 5 then (1:ℚ)/2 else if s + 1 ≥ 3 then 7/10 else 9/10))
        else B) =
      max m (B * (if s + 1 ≥ 5 then (1:ℚ)/2 else if s + 1 ≥ 3 then 7/10 else 9/10)) := by
    rcases lt_or_ge (max m (B * (if s + 1 ≥ 5 then (1:ℚ)/2 else if s + 1 ≥ 3 then 7/10 else 9/10)))
        B with hlt | hge
    · rw [if_pos hlt]
    · rw [if_neg (not_lt.mpr hge)]
      exact le_antisymm hge (max_le h1 (mul_le_of_le_one_right hB hf1))
  simp only [RateLimiter.handle_success]
  rw [key]

theorem max_mul_collapse (m y f : ℚ) (h0 : 0 ≤ m) (hf0 : 0 ≤ f) (hf1 : f ≤ 1) :
    max m (max m y * f) = max m (y * f) := by
  rcases le_total m y with h | h
  · rw [max_eq_right h]
  · rw [max_eq_left h]
    have h1 : m * f ≤ m := mul_le_of_le_one_right h0 hf1
    have h2 : y * f ≤ m * f := mul_le_mul_of_nonneg_right h hf0
    rw [max_eq_left h1, max_eq_left (h2.trans h1)]

/-- Claim C4, counterexample. From baseSleep = 100, minSleep = 1, maxSleep = 600
and consecutiveSuccesses = 0, five consecutive handle_success calls leave
baseSleep at 19.845 (each call rescales the *current* base, so the factors
0.9, 0.9, 0.7, 0.7, 0.5 compound), which differs from max(minSleep, 0.5·B) = 50
asserted by the claim. -/
theorem success_streak_counterexample :
    (RateLimiter.handle_success^[5] ⟨100, 1, 600, 0, 0⟩).base_sleep_time ≠
      max 1 ((1/2) * 100) := by
  have h5 : RateLimiter.handle_success^[5] (⟨100, 1, 600, 0, 0⟩ : RateLimiter) =
      (RateLimiter.mk 100 1 600 0 0
        ).handle_success.handle_success.handle_success.handle_success.handle_success := rfl
  rw [h5]
  rw [RateLimiter.handle_success_mk 100 1 600 0 0 (by norm_num) (by norm_num)]
  rw [show max (1:ℚ) (100 * (if 0 + 1 ≥ 5 then 1/2 else if 0 + 1 ≥ 3 then 7/10 else 9/10)) = 90 by
    norm_num [max_def]]
  rw [RateLimiter.handle_success_mk 90 1 600 0 1 (by norm_num) (by norm_num)]
  rw [show max (1:ℚ) (90 * (if 1 + 1 ≥ 5 then 1/2 else if 1 + 1 ≥ 3 then 7/10 else 9/10)) = 81 by
    norm_num [max_def]]
  rw [RateLimiter.handle_success_mk 81 1 600 0 2 (by norm_num) (by norm_num)]
  rw [show max (1:ℚ) (81 * (if 2 + 1 ≥ 5 then 1/2 else if 2 + 1 ≥ 3 then 7/10 else 9/10)) = 567/10 by
    norm_num [max_def]]
  rw [RateLimiter.handle_success_mk (567/10) 1 600 0 3 (by norm_num) (by norm_num)]
  rw [show max (1:ℚ) ((567/10) * (if 3 + 1 ≥ 5 then 1/2 else if 3 + 1 ≥ 3 then 7/10 else 9/10)) = 3969/100 by
    norm_num [max_def]]
  rw [RateLimiter.handle_success_mk (3969/100) 1 600 0 4 (by norm_num) (by norm_num)]
  norm_num [max_def]

/-- Claim C4, amended. After 5 consecutive handle_success calls from a state with
baseSleep = B ≥ minSleep = m ≥ 0 and consecutiveSuccesses = 0, the resulting
baseSleep is max(m, 0.19845·B) — the factors 0.9, 0.9, 0.7, 0.7, 0.5 compound
(0.9·0.9·0.7·0.7·0.5 = 3969/20000) — and it is strictly less than B unless B
was already at m. -/
theorem success_streak_amended (B m M : ℚ) (c : ℕ) (h0 : 0 ≤ m) (h1 : m ≤ B) :
    (RateLimiter.handle_success^[5] ⟨B, m, M, c, 0⟩).base_sleep_time =
      max m (B * (3969/20000)) ∧
    (RateLimiter.handle_success^[5] ⟨B, m, M, c, 0⟩).consecutive_successes = 5 ∧
    (RateLimiter.handle_success^[5] ⟨B, m, M, c, 0⟩).consecutive_429s = 0 ∧
    (m < B → (RateLimiter.handle_success^[5] ⟨B, m, M, c, 0⟩).base_sleep_time < B) := by
  have h5 : RateLimiter.handle_success^[5] (⟨B, m, M, c, 0⟩ : RateLimiter) =
      (RateLimiter.mk B m M c 0
        ).handle_success.handle_success.handle_success.handle_success.handle_success := rfl
  rw [h5]
  rw [RateLimiter.handle_success_mk B m M c 0 h0 h1]
  rw [show (if 0 + 1 ≥ 5 then (1:ℚ)/2 else if 0 + 1 ≥ 3 then 7/10 else 9/10) = 9/10 by norm_num]
  rw [RateLimiter.handle_success_mk _ m M 0 1 h0 (le_max_left _ _)]
  rw [show (if 1 + 1 ≥ 5 then (1:ℚ)/2 else if 1 + 1 ≥ 3 then 7/10 else 9/10) = 9/10 by norm_num]
  rw [max_mul_collapse m _ _ h0 (by norm_num) (by norm_num)]
  rw [RateLimiter.handle_success_mk _ m M 0 2 h0 (le_max_left _ _)]
  rw [show (if 2 + 1 ≥ 5 then (1:ℚ)/2 else if 2 + 1 ≥ 3 then 7/10 else 9/10) = 7/10 by norm_num]
  rw [max_mul_collapse m _ _ h0 (by norm_num) (by norm_num)]
  rw [RateLimiter.handle_success_mk _ m M 0 3 h0 (le_max_left _ _)]
  rw [show (if 3 + 1 ≥ 5 then (1:ℚ)/2 else if 3 + 1 ≥ 3 then 7/10 else 9/10) = 7/10 by norm_num]
  rw [max_mul_collapse m _ _ h0 (by norm_num) (by norm_num)]
  rw [RateLimiter.handle_success_mk _ m M 0 4 h0 (le_max_left _ _)]
  rw [show (if 4 + 1 ≥ 5 then (1:ℚ)/2 else if 4 + 1 ≥ 3 then 7/10 else 9/10) = 1/2 by norm_num]
  rw [max_mul_collapse m _ _ h0 (by norm_num) (by norm_num)]
  rw [show B * (9/10) * (9/10) * (7/10) * (7/10) * (1/2) = B * (3969/20000) by ring]
  refine ⟨rfl, rfl, rfl, fun hlt => ?_⟩
  have hBpos : 0 < B := lt_of_le_of_lt h0 hlt
  have : B * (3969/20000) < B := by
    nlinarith
  exact max_lt hlt this

/-- Claim C4 amended, witness. Instantiation at B = 100, m = 1, M = 600:
five successes land baseSleep at max(1, 100·(3969/20000)) = 19.845 < 100. -/
theorem success_streak_amended_witness :
    (0:ℚ) ≤ 1 ∧ (1:ℚ) ≤ 100 ∧
    ((RateLimiter.handle_success^[5] ⟨100, 1, 600, 0, 0⟩).base_sleep_time =
        max 1 (100 * (3969/20000)) ∧
      (RateLimiter.handle_success^[5] ⟨100, 1, 600, 0, 0⟩).consecutive_successes = 5 ∧
      (RateLimiter.handle_success^[5] ⟨100, 1, 600, 0, 0⟩).consecutive_429s = 0 ∧
      ((1:ℚ) < 100 → (RateLimiter.handle_success^[5] ⟨100, 1, 600, 0, 0⟩).base_sleep_time < 100)) :=
  ⟨by norm_num, by norm_num,
    success_streak_amended 100 1 600 0 (by norm_num) (by norm_num)⟩

/-- Claim C5. One handle_rate_limit call from a state with non-negative
baseSleep and maxSleep sets baseSleep to min(maxSleep, 1.5·B), resets
consecutiveSuccesses to 0, increments consecutive_429s, and the backoff it
imposes (for any jitter in [1.0, 1.5]) lies between the updated baseSleep × 1.0
and the updated baseSleep × 1.5. -/
theorem rate_limit_step (r : RateLimiter) (j : ℚ)
    (h0 : 0 ≤ r.base_sleep_time) (hM : 0 ≤ r.max_sleep_time)
    (hj1 : 1 ≤ j) (hj2 : j ≤ 3/2) :
    r.handle_rate_limit.base_sleep_time = min r.max_sleep_time (r.base_sleep_time * (3/2)) ∧
    r.handle_rate_limit.consecutive_successes = 0 ∧
    r.handle_rate_limit.consecutive_429s = r.consecutive_429s + 1 ∧
    r.handle_rate_limit.base_sleep_time * 1 ≤ r.rate_limit_backoff j ∧
    r.rate_limit_backoff j ≤ r.handle_rate_limit.base_sleep_time * (3/2) := by
  have hb : 0 ≤ r.handle_rate_limit.base_sleep_time :=
    le_min hM (mul_nonneg h0 (by norm_num))
  refine ⟨rfl, rfl, rfl, ?_, ?_⟩
  · exact mul_le_mul_of_nonneg_left hj1 hb
  · exact mul_le_mul_of_nonneg_left hj2 hb

/-- Claim C5, witness. Instantiation at the initial limiter state and
jitter 5/4: base goes from 1 to min(600, 1.5) = 1.5, counters update, and
the backoff 1.5 · 5/4 = 1.875 lies in [1.5, 2.25]. -/
theorem rate_limit_step_witness :
    (0:ℚ) ≤ RateLimiter.init.base_sleep_time ∧
    (0:ℚ) ≤ RateLimiter.init.max_sleep_time ∧
    (1:ℚ) ≤ 5/4 ∧ (5/4:ℚ) ≤ 3/2 ∧
    (RateLimiter.init.handle_rate_limit.base_sleep_time =
        min RateLimiter.init.max_sleep_time (RateLimiter.init.base_sleep_time * (3/2)) ∧
      RateLimiter.init.handle_rate_limit.consecutive_successes = 0 ∧
      RateLimiter.init.handle_rate_limit.consecutive_429s =
        RateLimiter.init.consecutive_429s + 1 ∧
      RateLimiter.init.handle_rate_limit.base_sleep_time * 1 ≤
        RateLimiter.init.rate_limit_backoff (5/4) ∧
      RateLimiter.init.rate_limit_backoff (5/4) ≤
        RateLimiter.init.handle_rate_limit.base_sleep_time * (3/2)) :=
  ⟨by norm_num [RateLimiter.init], by norm_num [RateLimiter.init], by norm_num, by norm_num,
    rate_limit_step RateLimiter.init (5/4)
      (by norm_num [RateLimiter.init]) (by norm_num [RateLimiter.init])
      (by norm_num) (by norm_num)⟩

theorem RateLimiter.applySignal_WF (r : RateLimiter) (sig : FetchSignal) (h : r.WF) :
    (r.applySignal sig).WF := by
  obtain ⟨B, m, M, c, s⟩ := r
  obtain ⟨hm0, hmb, hbM⟩ := h
  have hB : 0 ≤ B := hm0.trans hmb
  cases sig with
  | success =>
    have hf1 : (if s + 1 ≥ 5 then (1:ℚ)/2 else if s + 1 ≥ 3 then 7/10 else 9/10) ≤ 1 := by
      split
      · norm_num
      · split <;> norm_num
    show (RateLimiter.handle_success ⟨B, m, M, c, s⟩).WF
    rw [RateLimiter.handle_success_mk B m M c s hm0 hmb]
    exact ⟨hm0, le_max_left _ _, max_le (hmb.trans hbM) ((mul_le_of_le_one_right hB hf1).trans hbM)⟩
  | rateLimited =>
    refine ⟨hm0, le_min (hmb.trans hbM) (hmb.trans ?_), min_le_left _ _⟩
    exact le_mul_of_one_le_right hB (by norm_num)
  | otherError => exact ⟨hm0, hmb, hbM⟩

/-- Claim C6. The invariant minSleep ≤ baseSleep ≤ maxSleep (with minSleep a
non-negative duration) is preserved by each of the three outcome handlers, and
therefore holds after every sequence of fetch outcomes. -/
theorem limiter_invariant (r : RateLimiter) (h : r.WF) :
    (∀ s : FetchSignal, (r.applySignal s).WF) ∧
    (∀ sigs : List FetchSignal, (r.applySignals sigs).WF) := by
  refine ⟨fun s => r.applySignal_WF s h, fun sigs => ?_⟩
  induction sigs generalizing r with
  | nil => exact h
  | cons s rest ih =>
    exact ih (r.applySignal s) (r.applySignal_WF s h)

/-- Claim C6, witness. The default limiter state is well-formed and stays
well-formed across a success, a 429 and a transient error. -/
theorem limiter_invariant_witness :
    RateLimiter.init.WF ∧
    (RateLimiter.init.applySignal .rateLimited).WF ∧
    (RateLimiter.init.applySignals [.success, .rateLimited, .otherError]).WF := by
  have hwf : RateLimiter.init.WF := by
    refine ⟨?_, ?_, ?_⟩ <;> norm_num [RateLimiter.init]
  exact ⟨hwf, (limiter_invariant RateLimiter.init hwf).1 .rateLimited,
    (limiter_invariant RateLimiter.init hwf).2 [.success, .rateLimited, .otherError]⟩

/-! ## String helpers modelling Python str / re operations (ASCII inputs) -/

def isAsciiUpper (c : Char) : Bool := 'A' ≤ c && c ≤ 'Z'

def isAsciiLower (c : Char) : Bool := 'a' ≤ c && c ≤ 'z'

def isAsciiLetter (c : Char) : Bool := isAsciiUpper c || isAsciiLower c

def isAsciiDigit (c : Char) : Bool := '0' ≤ c && c ≤ '9'

/-- The regex class \w on ASCII text: letters, digits and underscore. -/
def isWordChar (c : Char) : Bool := isAsciiLetter c || isAsciiDigit c || c == '_'

/-- The regex class \s on ASCII text: space, tab, newline, CR, VT, FF. -/
def isSpaceChar (c : Char) : Bool :=
  c == ' ' || c == '\t' || c == '\n' || c == '\r' || c == '\x0b' || c == '\x0c'

/-- Python str.strip(chars): remove any run of the given characters from
both ends. -/
def pyStripChars (strip : List Char) (cs : List Char) : List Char :=
  ((cs.dropWhile strip.contains).reverse.dropWhile strip.contains).reverse

/-- Does the first list occur as a leading segment of the second? -/
def leadsList : List Char → List Char → Bool
  | [], _ => true
  | _ :: _, [] => false
  | p :: ps, c :: cs => p == c && leadsList ps cs

/-- Does pat occur as a contiguous segment of the second list
(Python substring containment)? -/
def listContainsSub (pat : List Char) : List Char → Bool
  | [] => pat.isEmpty
  | c :: rest => leadsList pat (c :: rest) || listContainsSub pat rest

/-- Python `pat in s` for strings. -/
def strContains (s pat : String) : Bool := listContainsSub pat.toList s.toList

/-- Python str.replace(pat, rep) for a non-empty pat: replace every
non-overlapping occurrence, scanning left to right. -/
def replaceAll (pat rep : List Char) : List Char → List Char
  | [] => []
  | c :: rest =>
    if leadsList pat (c :: rest) && !pat.isEmpty then
      rep ++ replaceAll pat rep ((c :: rest).drop pat.length)
    else
      c :: replaceAll pat rep rest
termination_by l => l.length
decreasing_by
  · rename_i hcond
    simp only [List.length_drop, List.length_cons]
    have : 1 ≤ pat.length := by
      cases pat with
      | nil => simp at hcond
      | cons a l => simp
    omega
  · simp

def pyReplace (s pat rep : String) : String :=
  String.mk (replaceAll pat.toList rep.toList s.toList)

def pyLower (s : String) : String := String.mk (s.toList.map Char.toLower)

def pyStripWs (s : String) : String :=
  String.mk (((s.toList.dropWhile isSpaceChar).reverse.dropWhile isSpaceChar).reverse)

/-! ## Badge tokenizer (src/src/extract.py, clean_badge_text)

The code applies four re.sub passes.  Each is embedded as a character-list
transform equivalent to the regex on the original text:

* sub(r'(?<=[a-z])([A-Z])', r', \1'): every match is a single uppercase
  letter whose predecessor in the subject is lowercase, so the substitution
  is pointwise — prepend ", " to such a letter.
* sub(r'([A-Z]{2,})([A-Z][a-z])', r'\1, \2'): with a maximal uppercase run
  of length n ≥ 3 followed by a lowercase letter, the greedy group takes the
  first n-1 letters, so ", " lands before the run's last uppercase letter;
  matches never overlap, so the substitution is again pointwise — insert
  ", " before an uppercase letter whose two predecessors are uppercase and
  whose successor is lowercase.
* sub(r'([^\w\s])([A-Za-z])', r'\1, \2'): each match consumes two adjacent
  characters; scan left to right, inserting ", " between a non-word
  non-space character and a following letter, then resume after the pair.
* sub(r'\s*,\s*', ', '): a match is a maximal whitespace run, a comma, and
  the following whitespace run; inside `afterComma` mode the whitespace
  following a replaced comma is consumed as the match's greedy tail. -/

def subLowerUpper (prev : Option Char) : List Char → List Char
  | [] => []
  | c :: rest =>
    (if (match prev with | some p => isAsciiLower p | none => false) && isAsciiUpper c
      then [',', ' ', c] else [c]) ++ subLowerUpper (some c) rest

def subUpperRun (prev2 prev1 : Option Char) : List Char → List Char
  | [] => []
  | c :: rest =>
    (if isAsciiUpper c &&
        (match rest with | d :: _ => isAsciiLower d | [] => false) &&
        (match prev1 with | some p => isAsciiUpper p | none => false) &&
        (match prev2 with | some p => isAsciiUpper p | none => false)
      then [',', ' ', c] else [c]) ++ subUpperRun prev1 (some c) rest

def subPunctLetter : List Char → List Char
  | [] => []
  | [c] => [c]
  | c :: d :: rest =>
    if !isWordChar c && !isSpaceChar c && isAsciiLetter d then
      c :: ',' :: ' ' :: d :: subPunctLetter rest
    else
      c :: subPunctLetter (d :: rest)

def subCollapseCommas (afterComma : Bool) (pendingWs : List Char) : List Char → List Char
  | [] => pendingWs
  | c :: rest =>
    if isSpaceChar c then
      if afterComma then subCollapseCommas true [] rest
      else subCollapseCommas false (pendingWs ++ [c]) rest
    else if c == ',' then
      ',' :: ' ' :: subCollapseCommas true [] rest
    else
      pendingWs ++ c :: subCollapseCommas false [] rest

/-- Python text.split(', '): split on each non-overlapping occurrence of
the two-character separator, scanning left to right. -/
def splitCommaSpace : List Char → List (List Char)
  | [] => [[]]
  | ',' :: ' ' :: rest => [] :: splitCommaSpace rest
  | c :: rest =>
    match splitCommaSpace rest with
    | [] => [[c]]
    | h :: t => (c :: h) :: t

/-- The tokenizer body of clean_badge_text, applied to the badge tag's
stripped text: the four re.sub passes, strip(', '), split(', '), and the
drop of the leading token (features[1:] when the list is non-empty). -/
def badge_tokenize (text : String) : List String :=
  let t1 := subLowerUpper none text.toList
  let t2 := subUpperRun none none t1
  let t3 := subPunctLetter t2
  let t4 := pyStripChars [',', ' '] (subCollapseCommas false [] t3)
  let features := (splitCommaSpace t4).map String.mk
  if features.isEmpty then [] else features.drop 1

/-- Claim C3, counterexample. On the badge text "RumahBaruBagus!Murah" the
tokenizer does not produce ["Baru", "Bagus", "Murah"]: the third re.sub pass
inserts the boundary after the "!" but keeps the "!" attached to the
preceding token. -/
theorem badge_tokenize_counterexample :
    badge_tokenize "RumahBaruBagus!Murah" ≠ ["Baru", "Bagus", "Murah"] := by
  decide

/-- Claim C3, amended. On the badge text "RumahBaruBagus!Murah" the tokenizer,
after discarding the first token "Rumah", produces exactly
["Baru", "Bagus!", "Murah"] — the exclamation mark stays attached to the token
it terminates. -/
theorem badge_tokenize_example :
    badge_tokenize "RumahBaruBagus!Murah" = ["Baru", "Bagus!", "Murah"] := by
  decide

/-! ## Price parsing (src/src/transform.py) -/

/-- A Python value as seen by parse_price: a string, a float (modelled as an
exact rational), None, or any other non-string object (e.g. pandas NaN). -/
inductive PyVal where
  | pstr (s : String)
  | pfloat (q : ℚ)
  | pnone
  | pother
deriving DecidableEq

def digitsVal (cs : List Char) : ℕ :=
  cs.foldl (fun a c => a * 10 + (c.toNat - '0'.toNat)) 0

/-- Python float() restricted to the decimal literals this pipeline feeds it:
optional surrounding whitespace, optional sign, digits with at most one
decimal point and at least one digit; anything else raises (none). -/
def parseDecimal (cs : List Char) : Option ℚ :=
  let intPart := cs.takeWhile isAsciiDigit
  let rest := cs.drop intPart.length
  match rest with
  | [] => if intPart.isEmpty then none else some (digitsVal intPart)
  | '.' :: frac =>
    if frac.all isAsciiDigit && !(intPart.isEmpty && frac.isEmpty) then
      some ((digitsVal intPart : ℚ) + (digitsVal frac : ℚ) / (10 : ℚ) ^ frac.length)
    else none
  | _ => none

def pyFloat? (s : String) : Option ℚ :=
  match (s.toList.dropWhile isSpaceChar).reverse.dropWhile isSpaceChar |>.reverse with
  | '+' :: rest => parseDecimal rest
  | '-' :: rest => (parseDecimal rest).map Neg.neg
  | cs => parseDecimal cs

/-- transform.parse_price: non-strings map to None; a string containing a
multiplier word has the (space-prefixed) word removed, is converted by
float() and scaled — a failed conversion maps to None; a string with no
multiplier word is returned unchanged. -/
def parse_price (price : PyVal) : PyVal :=
  match price with
  | .pstr s =>
    if strContains s "triliun" then
      match pyFloat? (pyReplace s " triliun" "") with
      | some x => .pfloat (x * 1000000000000)
      | none => .pnone
    else if strContains s "miliar" then
      match pyFloat? (pyReplace s " miliar" "") with
      | some x => .pfloat (x * 1000000000)
      | none => .pnone
    else if strContains s "juta" then
      match pyFloat? (pyReplace s " juta" "") with
      | some x => .pfloat (x * 1000000)
      | none => .pnone
    else if strContains s "ribu" then
      match pyFloat? (pyReplace s " ribu" "") with
      | some x => .pfloat (x * 1000)
      | none => .pnone
    else .pstr s
  | _ => .pnone

/-- The per-cell string normalisation performed by clean_price_column before
parse_price: lowercase, drop every "rp " occurrence, decimal comma to dot,
strip surrounding whitespace. -/
def clean_price_string (s : String) : String :=
  pyStripWs (pyReplace (pyReplace (pyLower s) "rp " "") "," ".")

/-- Which multiplier branch of parse_price fires on a string, and the
argument handed to float() there. -/
def multiplier_strip (s : String) : Option String :=
  if strContains s "triliun" then some (pyReplace s " triliun" "")
  else if strContains s "miliar" then some (pyReplace s " miliar" "")
  else if strContains s "juta" then some (pyReplace s " juta" "")
  else if strContains s "ribu" then some (pyReplace s " ribu" "")
  else none

/-- Claim C8. The price text "Rp 1,5 Miliar" cleans to "1.5 miliar" and parses
to 1.5 billion: lowercasing, dropping the "rp " prefix and turning the
decimal comma into a dot leave "1.5 miliar", whose number 1.5 is scaled by
the billion multiplier. -/
theorem price_rp_miliar_example :
    clean_price_string "Rp 1,5 Miliar" = "1.5 miliar" ∧
    parse_price (.pstr (clean_price_string "Rp 1,5 Miliar")) = .pfloat 1500000000 := by
  have hclean : clean_price_string "Rp 1,5 Miliar" = "1.5 miliar" := by
    simp [clean_price_string, pyStripWs, pyReplace, pyLower, replaceAll, leadsList, isSpaceChar]
  refine ⟨hclean, ?_⟩
  rw [hclean]
  have hfl : pyFloat? (pyReplace "1.5 miliar" " miliar" "") = some (3/2) := by
    simp [pyReplace, replaceAll, leadsList, pyFloat?, parseDecimal, isSpaceChar, isAsciiDigit,
      digitsVal]
    norm_num
  simp [parse_price, strContains, listContainsSub, leadsList, hfl]
  norm_num

/-- Claim C9. parse_price returns a string input unchanged when it contains
none of the multiplier substrings, and returns None exactly for non-string
input or for a multiplier-bearing string whose float conversion fails. -/
theorem parse_price_no_multiplier :
    (∀ s : String, strContains s "triliun" = false → strContains s "miliar" = false →
      strContains s "juta" = false → strContains s "ribu" = false →
      parse_price (.pstr s) = .pstr s) ∧
    (∀ s : String, parse_price (.pstr s) = .pnone ↔
      ∃ t, multiplier_strip s = some t ∧ pyFloat? t = none) ∧
    (∀ q : ℚ, parse_price (.pfloat q) = .pnone) ∧
    parse_price .pnone = .pnone ∧
    parse_price .pother = .pnone := by
  refine ⟨?_, ?_, fun _ => rfl, rfl, rfl⟩
  · intro s h1 h2 h3 h4
    simp [parse_price, h1, h2, h3, h4]
  · intro s
    simp only [parse_price, multiplier_strip]
    split
    · rcases hfl : pyFloat? (pyReplace s " triliun" "") with _ | x <;> simp [hfl]
    · split
      · rcases hfl : pyFloat? (pyReplace s " miliar" "") with _ | x <;> simp [hfl]
      · split
        · rcases hfl : pyFloat? (pyReplace s " juta" "") with _ | x <;> simp [hfl]
        · split
          · rcases hfl : pyFloat? (pyReplace s " ribu" "") with _ | x <;> simp [hfl]
          · simp

/-- Claim C9, witness. The multiplier-free string "dijual cepat" passes through
parse_price unchanged. -/
theorem parse_price_no_multiplier_witness :
    strContains "dijual cepat" "triliun" = false ∧
    strContains "dijual cepat" "miliar" = false ∧
    strContains "dijual cepat" "juta" = false ∧
    strContains "dijual cepat" "ribu" = false ∧
    parse_price (.pstr "dijual cepat") = .pstr "dijual cepat" :=
  ⟨by decide, by decide, by decide, by decide,
    parse_price_no_multiplier.1 "dijual cepat" (by decide) (by decide) (by decide) (by decide)⟩

/-! ## Database load (src/src/load.py) -/

/-- A DataFrame as load_to_postgres sees it: column names and rows of cell
values. df.empty is true when either axis has length zero. -/
structure DataFrame where
  columns : List String
  rows : List (List String)
deriving DecidableEq

def DataFrame.empty (df : DataFrame) : Bool := df.rows.isEmpty || df.columns.isEmpty

/-- One SQL action performed inside the load transaction. -/
inductive DbAction where
  | truncate (table : String)
  | insertBatch (table : String) (rows : List (List String))
  | mergeUpsert (stg_table main_table unique_key : String) (columns : List String)
deriving DecidableEq

/-- insert_to_staging: one batched insert per index of range(0, len(df),
batch_size), each covering the slice df.iloc[i : i + batch_size]. -/
def insert_to_staging (df : DataFrame) (stg_table : String) (batch_size : ℕ) : List DbAction :=
  (List.range ((df.rows.length + batch_size - 1) / batch_size)).map
    (fun i => .insertBatch stg_table ((df.rows.drop (i * batch_size)).take batch_size))

/-- load_to_postgres, modelled as the list of SQL actions executed inside the
transaction (or the raised error): an empty DataFrame returns before anything
happens — even before batch_size is validated; otherwise a non-positive
batch_size raises, and the transaction truncates staging, inserts in batches,
and merges staging into the main table. -/
def load_to_postgres (df : DataFrame) (conn_str stg_table main_table unique_key : String)
    (batch_size : ℤ) : Except String (List DbAction) :=
  if df.empty then .ok []
  else if batch_size ≤ 0 then .error "batch_size must be a positive integer"
  else .ok (.truncate stg_table ::
    insert_to_staging df stg_table batch_size.toNat ++
    [.mergeUpsert stg_table main_table unique_key df.columns])

/-- Claim C10. On a DataFrame with no rows, load_to_postgres returns
immediately with no database action for every batch_size — including
non-positive ones, whose validation is skipped by the early return. -/
theorem load_empty_noop (columns : List String)
    (conn_str stg_table main_table unique_key : String) (batch_size : ℤ) :
    load_to_postgres ⟨columns, []⟩ conn_str stg_table main_table unique_key batch_size =
      .ok [] := rfl

/-! ## Markup model and BeautifulSoup queries used by the parser -/

/-- An HTML node: an element with tag name, class list, attributes and
children, or a text node. -/
inductive Node where
  | text (s : String)
  | elem (tag : String) (classes : List String) (attrs : List (String × String))
      (children : List Node)

mutual

def nodeDescendants : Node → List Node
  | .text _ => []
  | .elem _ _ _ children => listDescendants children

def listDescendants : List Node → List Node
  | [] => []
  | n :: rest => n :: (nodeDescendants n ++ listDescendants rest)

end

def isElemWithTag (tag : String) : Node → Bool
  | .elem t _ _ _ => t == tag
  | .text _ => false

def hasClass (cls : String) : Node → Bool
  | .elem _ classes _ _ => classes.contains cls
  | .text _ => false

/-- Tag.find / select_one: the first descendant, in document (pre-)order,
satisfying the filter; None when there is none. -/
def findFirst (p : Node → Bool) (n : Node) : Option Node := (nodeDescendants n).find? p

/-- Tag.find_all: every descendant, in document order, satisfying the
filter. -/
def findAllNodes (p : Node → Bool) (n : Node) : List Node := (nodeDescendants n).filter p

/-- Tag attribute subscript, as a lookup: tag['href'] raises when absent,
which callers must handle (none = absent). -/
def getAttr (attr : String) : Node → Option String
  | .elem _ _ attrs _ => List.lookup attr attrs
  | .text _ => none

/-- Tag.get_text(strip=True): concatenate every descendant text piece, each
stripped of surrounding whitespace. -/
def getTextStrip : Node → String
  | .text s => pyStripWs s
  | .elem _ _ _ children =>
    String.join (((listDescendants children).filterMap
      (fun m => match m with | .text s => some s | _ => none)).map pyStripWs)

/-! ## Listing-card parser (src/src/extract.py, parse_listing_card) -/

/-- clean_badge_text: an absent badge tag (None, falsy) yields no features;
otherwise tokenize the badge's stripped text. -/
def clean_badge_text (badge_tag : Option Node) : List String :=
  match badge_tag with
  | none => []
  | some t => badge_tokenize (getTextStrip t)

/-- The condition of the location generator: the span's lowercased text
contains some lowercased admin_list entry. -/
def locationMatch (admin_list : List String) (tag : Node) : Bool :=
  admin_list.any (fun admin => strContains (pyLower (getTextStrip tag)) (pyLower admin))

/-- The dict built by parse_listing_card. -/
structure Cards where
  link : Option String
  name : Option String
  price_rp : Option String
  location : String
  lot_size : Option String
  building_size : Option String
  n_bedroom : Option String
  n_bathroom : Option String
  n_carport : Option String
  additional_features : List String
deriving DecidableEq

/-- parse_listing_card: one listing fragment to one record. Every selector
falls back to a null field when its element is absent, except the link: when
the selected anchor exists but carries no href attribute, the subscript
link_tag['href'] raises an uncaught KeyError (modelled as none). -/
def parse_listing_card (listing : Node) (admin_list : List String) : Option Cards :=
  let link_tag := findFirst
    (fun m => isElemWithTag "a" m && !hasClass "quick-label-badge" m) listing
  let name_tag := findFirst (isElemWithTag "h2") listing
  let price_tag := findFirst
    (fun m => isElemWithTag "div" m && hasClass "card-featured__middle-section__price" m) listing
  let location_tag := findAllNodes (isElemWithTag "span") listing
  let attribute_tags := findAllNodes
    (fun m => isElemWithTag "span" m && hasClass "attribute-text" m) listing
  let size_tags := findAllNodes
    (fun m => isElemWithTag "div" m && hasClass "attribute-info" m) listing
  let locations := ((location_tag.find? (locationMatch admin_list)).map getTextStrip).getD ""
  let badge_tags := findFirst
    (fun m => isElemWithTag "div" m && hasClass "card-featured__middle-section__header-badge" m)
    listing
  let restCards : Option String → Cards := fun link =>
    { link := link
      name := name_tag.map getTextStrip
      price_rp := (price_tag.bind (findFirst (isElemWithTag "strong"))).map getTextStrip
      location := locations
      lot_size := (size_tags[0]?).map getTextStrip
      building_size := (size_tags[1]?).map getTextStrip
      n_bedroom := (attribute_tags[0]?).map getTextStrip
      n_bathroom := (attribute_tags[1]?).map getTextStrip
      n_carport := (attribute_tags[2]?).map getTextStrip
      additional_features := clean_badge_text badge_tags }
  match link_tag with
  | none => some (restCards none)
  | some a => (getAttr "href" a).map (fun href => restCards (some ("rumah123.com" ++ href)))

/-- The selected anchor, when present, carries an href attribute — the
condition under which parse_listing_card cannot raise. -/
def anchor_href_ok (listing : Node) : Bool :=
  match findFirst (fun m => isElemWithTag "a" m && !hasClass "quick-label-badge" m) listing with
  | none => true
  | some a => (getAttr "href" a).isSome

/-- The totality contract of the parser, as far as it holds: a record is
produced, and each absent sub-element yields its null (or empty) field. -/
def TotalParseSpec (listing : Node) (admin_list : List String) : Prop :=
  ∃ r, parse_listing_card listing admin_list = some r ∧
    (findFirst (fun m => isElemWithTag "div" m &&
        hasClass "card-featured__middle-section__price" m) listing = none →
      r.price_rp = none) ∧
    (findFirst (isElemWithTag "h2") listing = none → r.name = none) ∧
    (findFirst (fun m => isElemWithTag "a" m && !hasClass "quick-label-badge" m) listing = none →
      r.link = none) ∧
    (findAllNodes (fun m => isElemWithTag "div" m && hasClass "attribute-info" m) listing = [] →
      r.lot_size = none ∧ r.building_size = none) ∧
    (findAllNodes (fun m => isElemWithTag "span" m && hasClass "attribute-text" m) listing = [] →
      r.n_bedroom = none ∧ r.n_bathroom = none ∧ r.n_carport = none) ∧
    ((findAllNodes (isElemWithTag "span") listing).find? (locationMatch admin_list) = none →
      r.location = "") ∧
    (findFirst (fun m => isElemWithTag "div" m &&
        hasClass "card-featured__middle-section__header-badge" m) listing = none →
      r.additional_features = [])

/-- Claim C7, counterexample. The parser is not total: on a fragment whose
first non-badge anchor has no href attribute, link_tag['href'] raises an
uncaught KeyError (modelled by the none result). -/
theorem parse_listing_card_counterexample :
    parse_listing_card
      (.elem "div" ["card-featured__middle-section"] []
        [.elem "a" [] [] [.text "Detail"]]) [] = none := by
  decide

/-- Claim C7, amended. For every fragment whose selected anchor (when present)
carries an href attribute, and every adminAreas list, the parser returns a
record without raising, and each absent sub-element yields a null field —
empty string for the location, empty list for the features, null for the
price when the price container is missing. -/
theorem parse_listing_card_total (listing : Node) (admin_list : List String)
    (h : anchor_href_ok listing = true) :
    TotalParseSpec listing admin_list := by
  unfold TotalParseSpec
  unfold anchor_href_ok at h
  unfold parse_listing_card
  cases hlink : findFirst
      (fun m => isElemWithTag "a" m && !hasClass "quick-label-badge" m) listing with
  | none =>
    refine ⟨_, rfl, ?_, ?_, ?_, ?_, ?_, ?_, ?_⟩ <;> intro hcond <;>
      simp [hcond, clean_badge_text]
  | some a =>
    rw [hlink] at h
    simp only [Option.isSome_iff_exists] at h
    obtain ⟨href, hhref⟩ := h
    dsimp only
    rw [hhref]
    refine ⟨_, rfl, ?_, ?_, ?_, ?_, ?_, ?_, ?_⟩ <;> intro hcond
    · simp [hcond]
    · simp [hcond]
    · exact absurd hcond (by simp)
    · simp [hcond]
    · simp [hcond]
    · simp [hcond]
    · simp [hcond, clean_badge_text]

/-- Claim C7 amended, witness. A bare fragment with no sub-elements at all has
a trivially satisfied anchor condition and parses to the all-null record. -/
theorem parse_listing_card_total_witness :
    anchor_href_ok (.elem "div" ["card-featured__middle-section"] [] [.text "x"]) = true ∧
    TotalParseSpec (.elem "div" ["card-featured__middle-section"] [] [.text "x"]) ["Jakarta"] :=
  ⟨by decide,
    parse_listing_card_total (.elem "div" ["card-featured__middle-section"] [] [.text "x"])
      ["Jakarta"] (by decide)⟩

/-! ## Extraction pipeline (src/src/extract.py, extract_data) -/

/-- The classified result of one HTTP GET: status 200 with the response
body, status 429, another status code, or a transport failure. -/
inductive Outcome where
  | success (body : Node)
  | rateLimited
  | httpError (code : ℕ)
  | transportError

inductive OutcomeKind where
  | success
  | rateLimited
  | httpError
  | transportError
deriving DecidableEq

def Outcome.kind : Outcome → OutcomeKind
  | .success _ => .success
  | .rateLimited => .rateLimited
  | .httpError _ => .httpError
  | .transportError => .transportError

def VALID_ADS_TYPES : List String := ["jual", "sewa"]

def VALID_PROPERTY_TYPES : List String := ["rumah", "apartemen", "kost", "villa", "hotel"]

def validate_input_params (ads_type property_type : String) (num_pages : ℤ) :
    Except String Unit :=
  if !VALID_ADS_TYPES.contains ads_type then
    .error "Invalid ads type"
  else if !VALID_PROPERTY_TYPES.contains property_type then
    .error "Invalid property type"
  else if num_pages ≤ 0 then
    .error "num_pages must be a positive integer"
  else .ok ()

/-- One listing record accumulated by the loop: the parsed card updated with
the request's ads_type and property_type. -/
structure ListingRecord where
  card : Cards
  ads_type : String
  property_type : String
deriving DecidableEq

/-- Why the page loop ended: it ran out of pages, or a page with no
listing cards broke out early. -/
inductive StopReason where
  | exhausted
  | emptyPage
deriving DecidableEq

/-- The observable outcome of one extraction run: the accumulated records,
the fetches performed in order (page number and outcome), and why the loop
ended. -/
structure ExtractResult where
  records : List ListingRecord
  pages_visited : List (ℕ × Outcome)
  stop : StopReason

/-- soup.find_all('div', class_='card-featured__middle-section') on a
response body. -/
def listing_cards_of (body : Node) : List Node :=
  findAllNodes (fun m => isElemWithTag "div" m && hasClass "card-featured__middle-section" m) body

/-- The per-page card loop: parse each card and append; a card on which
parse_listing_card raises aborts the rest of the page's cards (the
exception is caught by the page-level handler, keeping earlier records). -/
def parse_cards (admin_list : List String) (ads_type property_type : String) :
    List Node → List ListingRecord
  | [] => []
  | card :: rest =>
    match parse_listing_card card admin_list with
    | none => []
    | some cards =>
      ⟨cards, ads_type, property_type⟩ :: parse_cards admin_list ads_type property_type rest

/-- The page loop of extract_data over `for page_num in range(1, num_pages + 1)`.
CPython rebinds page_num from the range iterator at the top of every
iteration, so the `page_num -= 1` executed in the 429 branch before
`continue` is dead: the 429 branch updates the limiter and the loop then
moves on to the next page — the rate-limited page is never refetched. -/
def extract_loop (fetch : ℕ → Outcome) (admin_list : List String)
    (ads_type property_type : String) :
    List ℕ → RateLimiter → List ListingRecord → List (ℕ × Outcome) → ExtractResult
  | [], _, all_data, trace => ⟨all_data, trace.reverse, .exhausted⟩
  | page_num :: rest, limiter, all_data, trace =>
    match fetch page_num with
    | .success body =>
      let listing_cards := listing_cards_of body
      if listing_cards.isEmpty then
        ⟨all_data, ((page_num, Outcome.success body) :: trace).reverse, .emptyPage⟩
      else
        extract_loop fetch admin_list ads_type property_type rest limiter.handle_success
          (all_data ++ parse_cards admin_list ads_type property_type listing_cards)
          ((page_num, Outcome.success body) :: trace)
    | .rateLimited =>
      extract_loop fetch admin_list ads_type property_type rest limiter.handle_rate_limit
        all_data ((page_num, Outcome.rateLimited) :: trace)
    | .httpError code =>
      extract_loop fetch admin_list ads_type property_type rest limiter.handle_other_error
        all_data ((page_num, Outcome.httpError code) :: trace)
    | .transportError =>
      extract_loop fetch admin_list ads_type property_type rest limiter.handle_other_error
        all_data ((page_num, Outcome.transportError) :: trace)

/-- extract_data: validate, then run the page loop from a fresh limiter over
pages 1 .. num_pages, threading the fetch outcomes. -/
def extract_data (fetch : ℕ → Outcome) (ads_type region property_type : String)
    (num_pages : ℤ) (admin_list : List String) : Except String ExtractResult :=
  match validate_input_params ads_type property_type num_pages with
  | .error e => .error e
  | .ok _ =>
    .ok (extract_loop fetch admin_list ads_type property_type
      (List.range' 1 num_pages.toNat) RateLimiter.init [] [])

/-! ### Concrete runs of the pipeline -/

/-- A listing card holding just a heading. -/
def cardNamed (nm : String) : Node :=
  .elem "div" ["card-featured__middle-section"] [] [.elem "h2" [] [] [.text nm]]

/-- A response body with two listing cards. -/
def pageTwoCards : Node := .elem "html" [] [] [cardNamed "Rumah A", cardNamed "Rumah B"]

/-- A response body with one listing card. -/
def pageOneCard : Node := .elem "html" [] [] [cardNamed "Rumah C"]

/-- A response body with no listing cards. -/
def pageNoCards : Node := .elem "html" [] [] [.text "empty"]

/-- The record parsed from cardNamed nm under an empty admin list, tagged
with the request parameters of the runs below. -/
def recordNamed (nm : String) : ListingRecord :=
  ⟨⟨none, some nm, none, "", none, none, none, none, none, []⟩, "jual", "rumah"⟩

/-- Fetch oracle for the C1 run: page 1 answers 429, every other page
answers 200 with one listing card. -/
def fetch429ThenOk : ℕ → Outcome :=
  fun page_num => if page_num = 1 then .rateLimited else .success pageOneCard

/-- Claim C1, it does not hold of the code. With num_pages = 2, page 1 answering
429 and page 2 answering 200: the run performs exactly two fetches — page 1
once, rate-limited, and page 2 once, successful. The decrement in the 429
branch cannot affect the range iterator, so page 1 is never retried and the
loop moves past it without any successful fetch of it, against the claimed
same-page retry; only page 2's record is collected. -/
theorem rate_limited_page_never_retried :
    ∃ r, extract_data fetch429ThenOk "jual" "dki-jakarta" "rumah" 2 [] = .ok r ∧
      r.pages_visited.map (fun e => (e.1, e.2.kind)) =
        [(1, .rateLimited), (2, .success)] ∧
      r.records = [recordNamed "Rumah C"] ∧
      r.stop = .exhausted := by
  refine ⟨_, rfl, ?_, ?_, ?_⟩ <;> decide

/-- Fetch oracle for the C2 run: page 1 answers 200 with two listing cards,
page 2 answers 200 with none, later pages would answer 200 with cards
again were they ever requested. -/
def fetchEmptySecondPage : ℕ → Outcome :=
  fun page_num =>
    if page_num = 1 then .success pageTwoCards
    else if page_num = 2 then .success pageNoCards
    else .success pageOneCard

/-- Claim C2. With num_pages = 5, page 1 yielding 2 listing fragments and page 2
yielding 0: the run returns exactly the two records of page 1 in discovery
order, stops early with the empty-page reason, and fetches only pages 1 and
2 — pages 3 through 5 are never requested. -/
theorem empty_page_stops_run :
    ∃ r, extract_data fetchEmptySecondPage "jual" "dki-jakarta" "rumah" 5 [] = .ok r ∧
      r.records = [recordNamed "Rumah A", recordNamed "Rumah B"] ∧
      r.pages_visited.map (fun e => (e.1, e.2.kind)) = [(1, .success), (2, .success)] ∧
      r.stop = .emptyPage := by
  refine ⟨_, rfl, ?_, ?_, ?_⟩ <;> decide

end ETL
